import Mathlib

/-!
# Verification of the Seoul_House backtesting-and-forecasting core

Shallow embedding of `src/utils/predictor.py` (`predict_district_prices`).

Modelling conventions:
* A district's history is a `List (ℕ × ℚ)` of `(date, price)` rows in
  dataframe order (chronologically sorted, as the ingestion collaborator
  guarantees).  Dates are month indices (`year * 12 + month - 1`), which is
  faithful for the monthly, month-start series this program consumes.
* Python floats are modelled as exact rationals `ℚ`.
* The three third-party model libraries (Prophet, sklearn LinearRegression,
  sklearn RandomForestRegressor) are black-box numeric fitters; the program
  treats them as black boxes behind `try/except`.  They are embedded as an
  `Oracles` record of functions returning `Option` — `none` models the
  fit/predict call raising, `some v` models it returning value(s) `v`.
  Everything the claims speak about (window construction, penalty and
  sentinel errors, averaging, model selection, report assembly, the final
  sort) is deterministic repository code and is embedded directly.
* `Prophet.make_future_dataframe(periods, freq='MS')` is embedded per its
  documented and actual behaviour: with `include_history=True` (the
  default used here) it returns the history dates followed by `periods`
  consecutive months starting the month after the last history date.
-/

/-- The three forecasting model variants. -/
inductive Model where
  | prophet
  | linear
  | rf
deriving DecidableEq, Repr, Inhabited

/-- One district's input: its identifier and its `(date, price)` rows,
mirroring the `district_df` slice of the long-format dataframe. -/
structure District where
  name : ℕ
  series : List (ℕ × ℚ)
deriving DecidableEq, Repr

/-- Python list slicing `xs[start:stop]` with already-normalised
(non-negative, clamped) endpoints. -/
def pySlice (xs : List α) (start stop : ℕ) : List α :=
  (xs.drop start).take (stop - start)

/-- `cv_years` from lines 39–41: number of cross-validation windows as a
function of the series length. -/
def cvYears (n : ℕ) : ℕ :=
  if n > 60 then 3 else if n > 36 then 1 else 0

/-- The descending loop counter `range(cv_years, 0, -1)` = `[W, W-1, …, 1]`. -/
def ksFor (w : ℕ) : List ℕ :=
  (List.range w).reverse.map (fun j => j + 1)

/-- One iteration of the window-building part of the loop body
(lines 45–50): `cut_idx = 12*k`; `train = df.iloc[:-cut_idx]`;
`test = df.iloc[-12:]` when `k == 1` else `df.iloc[-cut_idx:-(cut_idx-12)]`;
the window is skipped (`continue`) when `len(train) < 2 or len(test) < 1`. -/
def windowFor (xs : List (ℕ × ℚ)) (k : ℕ) :
    Option (List (ℕ × ℚ) × List (ℕ × ℚ)) :=
  let n := xs.length
  let cut := 12 * k
  let train := xs.take (n - cut)
  let test := if k = 1 then xs.drop (n - 12) else pySlice xs (n - cut) (n - (cut - 12))
  if train.length < 2 ∨ test.length < 1 then none else some (train, test)

/-- All train/test windows the cross-validation loop actually forms for a
series, in loop order `k = cv_years, …, 1`. -/
def backtestWindows (xs : List (ℕ × ℚ)) : List (List (ℕ × ℚ) × List (ℕ × ℚ)) :=
  (ksFor (cvYears xs.length)).filterMap (windowFor xs)

/-- The third-party model fitters, embedded as oracles.  `evalP/evalL/evalRF`
model one `fit` + `predict` + MAPE computation on a train/test window
(lines 58–77): `some e` is the computed MAPE percentage, `none` is the
`except` path.  `prophetPred/linearPred/rfPred` model the full-history
refit and prediction over a list of target dates (lines 93–110): `none`
is a raised exception, caught by the district-level `try` . -/
structure Oracles where
  evalP : List (ℕ × ℚ) × List (ℕ × ℚ) → Option ℚ
  evalL : List (ℕ × ℚ) × List (ℕ × ℚ) → Option ℚ
  evalRF : List (ℕ × ℚ) × List (ℕ × ℚ) → Option ℚ
  prophetPred : List (ℕ × ℚ) → List ℕ → Option (List ℚ)
  linearPred : List (ℕ × ℚ) → List ℕ → Option (List ℚ)
  rfPred : List (ℕ × ℚ) → List ℕ → Option (List ℚ)

/-- The cross-validation loop body over the formed windows (lines 44–77):
for each window, each model records its MAPE, or the penalty `100.0` when
its fit/predict raises; the three per-model error lists grow by `append`
exactly as `errors_p/errors_l/errors_rf` do. -/
def cvLoop (or : Oracles) :
    List (List (ℕ × ℚ) × List (ℕ × ℚ)) → List ℚ × List ℚ × List ℚ →
    List ℚ × List ℚ × List ℚ
  | [], acc => acc
  | w :: ws, (ep, el, erf) =>
      cvLoop or ws
        (ep ++ [(or.evalP w).getD 100],
         el ++ [(or.evalL w).getD 100],
         erf ++ [(or.evalRF w).getD 100])

/-- `np.mean(errors) if errors else 99.9` (lines 79–81). -/
def avgError (errs : List ℚ) : ℚ :=
  if errs = [] then 999 / 10 else errs.sum / errs.length

/-- Step 1 of the per-district analysis (lines 33–83): the averaged
backtest error of each model, `(Prophet, Linear, RandomForest)`.  When
`cv_years = 0` every model gets the sentinel `99.9`. -/
def backtestErrors (or : Oracles) (xs : List (ℕ × ℚ)) : ℚ × ℚ × ℚ :=
  if cvYears xs.length > 0 then
    let acc := cvLoop or (backtestWindows xs) ([], [], [])
    (avgError acc.1, avgError acc.2.1, avgError acc.2.2)
  else
    (999 / 10, 999 / 10, 999 / 10)

/-- `Prophet.make_future_dataframe(periods=months, freq='MS')` on a model
fitted to history dates `histDates` (line 97): the history dates followed
by `months` consecutive months starting the month after the last history
date. -/
def makeFutureDS (histDates : List ℕ) (months : ℕ) : List ℕ :=
  histDates ++ (List.range months).map (fun i => histDates.getLastD 0 + 1 + i)

/-- `(future - current) / current * 100` (lines 123–125). -/
def modelReturn (current fut : ℚ) : ℚ :=
  (fut - current) / current * 100

/-- Round an integer-scaled rational to the nearest integer, ties to even:
the behaviour of Python's `round` at an exact tie, used to model
`round(x, 2)`. -/
def rndHalfEven (q : ℚ) : ℤ :=
  let f := ⌊q⌋
  let r := q - f
  if r < 1 / 2 then f
  else if 1 / 2 < r then f + 1
  else if 2 ∣ f then f else f + 1

/-- Python's `round(x, 2)` on the exact-rational model of the float. -/
def round2 (q : ℚ) : ℚ :=
  (rndHalfEven (q * 100) : ℚ) / 100

/-- Read off the averaged error of a given model from the three per-model
averages (the association fixed by lines 130–138 and 150–158). -/
def errorOfModel (errP errL errRF : ℚ) : Model → ℚ
  | Model.prophet => errP
  | Model.linear => errL
  | Model.rf => errRF

/-- Read off the (unrounded) return of a given model from the three
per-model returns (the association fixed by lines 130–138). -/
def returnOfModel (retP retL retRF : ℚ) : Model → ℚ
  | Model.prophet => retP
  | Model.linear => retL
  | Model.rf => retRF

/-- One row of the output dataframe (lines 141–162).  Error columns are
kept as rationals (the code stores them formatted as strings; the
formatting is presentation only).  Per-model return columns carry the
`round(…, 2)` the code applies; `bestReturn` (`'최적 수익률'`) is stored
unrounded. -/
structure Report where
  district : ℕ
  currentPrice : ℚ
  bestReturn : ℚ
  returnL : ℚ
  errL : ℚ
  returnRF : ℚ
  errRF : ℚ
  returnP : ℚ
  errP : ℚ
  bestModel : Model
deriving DecidableEq, Repr, Inhabited

/-- The per-district forecast bundle (lines 164–170): history plus, per
model, the prediction frame `(ds, yhat)`, plus the three errors. -/
structure Bundle where
  history : List (ℕ × ℚ)
  prophetDS : List ℕ
  prophetYhat : List ℚ
  linearDS : List ℕ
  linearYhat : List ℚ
  rfDS : List ℕ
  rfYhat : List ℚ
  errP : ℚ
  errL : ℚ
  errRF : ℚ
deriving DecidableEq, Repr, Inhabited

/-- Best-model selection (lines 128–138): `best_error = min(p, l, rf)`,
then the `if/elif/else` chain on float equality.  Returns the chosen model
together with its (unrounded) return. -/
def bestChoice (errP errL errRF retP retL retRF : ℚ) : Model × ℚ :=
  let bestError := min errP (min errL errRF)
  if bestError = errP then (Model.prophet, retP)
  else if bestError = errL then (Model.linear, retL)
  else (Model.rf, retRF)

/-- Report-row assembly from the already-extracted scalars
(lines 115–162, given `current_price`, the three last projected prices and
the three averaged errors). -/
def buildReport (name : ℕ) (current futP futL futRF errP errL errRF : ℚ) :
    Report :=
  let retP := modelReturn current futP
  let retL := modelReturn current futL
  let retRF := modelReturn current futRF
  let chosen := bestChoice errP errL errRF retP retL retRF
  { district := name
    currentPrice := round2 current
    bestReturn := chosen.2
    returnL := round2 retL
    errL := errL
    returnRF := round2 retRF
    errRF := errRF
    returnP := round2 retP
    errP := errP
    bestModel := chosen.1 }

/-- Steps 2–3 of the per-district analysis (lines 88–170), inside the
district-level `try`: refit all three models on the full history, predict
over `make_future_dataframe`'s dates, assemble the report row and the
forecast bundle.  `none` is the `except` path (line 172): the district is
dropped.  An empty prediction or price column makes the `iloc[-1]`
accesses raise, hence also `none`. -/
def forecastStep (or : Oracles) (months : ℕ) (d : District)
    (errP errL errRF : ℚ) : Option (Report × Bundle) := do
  let fds := makeFutureDS (d.series.map Prod.fst) months
  let fcP ← or.prophetPred d.series fds
  let fcL ← or.linearPred d.series fds
  let fcRF ← or.rfPred d.series fds
  let current ← (d.series.map Prod.snd).getLast?
  let futP ← fcP.getLast?
  let futL ← fcL.getLast?
  let futRF ← fcRF.getLast?
  let report := buildReport d.name current futP futL futRF errP errL errRF
  let bundle : Bundle :=
    { history := d.series
      prophetDS := fds
      prophetYhat := fcP
      linearDS := fds
      linearYhat := fcL
      rfDS := fds
      rfYhat := fcRF
      errP := errP
      errL := errL
      errRF := errRF }
  some (report, bundle)

/-- Analysis of one district (loop body, lines 28–175): the hard skip for
fewer than 12 rows (lines 35–37), then backtesting, then the forecast
step.  `none` means the district contributes nothing to either output. -/
def analyzeDistrict (or : Oracles) (months : ℕ) (d : District) :
    Option (Report × Bundle) :=
  if d.series.length < 12 then none
  else
    let errs := backtestErrors or d.series
    forecastStep or months d errs.1 errs.2.1 errs.2.2

/-- The sort key relation of line 180:
`sort_values(by='최적 수익률', ascending=False)`. -/
def byBestReturnDesc (a b : Report) : Prop :=
  b.bestReturn ≤ a.bestReturn

instance : DecidableRel byBestReturnDesc :=
  fun a b => inferInstanceAs (Decidable (b.bestReturn ≤ a.bestReturn))

/-- The whole of `predict_district_prices` (minus the progress-bar side
effects): analyze every district, collect rows and bundles, and sort the
rows by `'최적 수익률'` descending before returning. -/
def predictDistrictPrices (or : Oracles) (ds : List District)
    (months : ℕ) : List Report × List (ℕ × Bundle) :=
  let analyzed := ds.filterMap (analyzeDistrict or months)
  (List.insertionSort byBestReturnDesc (analyzed.map Prod.fst),
   analyzed.map (fun rb => (rb.1.district, rb.2)))

/-! ## Concrete instances used by witnesses and counterexamples -/

/-- Twelve monthly rows, January 2023 … December 2023 (month index
`2023*12 + m`), constant price 100. -/
def demoDistrict12 : District :=
  { name := 0, series := (List.range 12).map (fun i => (24276 + i, (100 : ℚ))) }

/-- A district identical in dates to `demoDistrict12` but with constant
price `1/2`. -/
def demoDistrictHalf : District :=
  { name := 1, series := (List.range 12).map (fun i => (24276 + i, (1 / 2 : ℚ))) }

/-- A district with only ten rows of history. -/
def shortDistrict : District :=
  { name := 2, series := (List.range 10).map (fun i => (24276 + i, (100 : ℚ))) }

/-- A district whose prices end at 3, paired with `cxOracle` below. -/
def cxDistrict : District :=
  { name := 3, series := (List.range 12).map (fun i => (24276 + i, (3 : ℚ))) }

/-- Forty monthly rows (one cross-validation window). -/
def series40 : List (ℕ × ℚ) :=
  (List.range 40).map (fun i => (24276 + i, (100 : ℚ) + i))

/-- Oracles whose window evaluations always succeed with MAPE 5 and whose
full-history predictions are constantly 1. -/
def demoOracle : Oracles :=
  { evalP := fun _ => some 5
    evalL := fun _ => some 5
    evalRF := fun _ => some 5
    prophetPred := fun _ ds => some (ds.map (fun _ => (1 : ℚ)))
    linearPred := fun _ ds => some (ds.map (fun _ => (1 : ℚ)))
    rfPred := fun _ ds => some (ds.map (fun _ => (1 : ℚ))) }

/-- Oracles whose full-history predictions are constantly 4 (so that a
current price of 3 yields the non-terminating decimal return `100/3`). -/
def cxOracle : Oracles :=
  { evalP := fun _ => some 5
    evalL := fun _ => some 5
    evalRF := fun _ => some 5
    prophetPred := fun _ ds => some (ds.map (fun _ => (4 : ℚ)))
    linearPred := fun _ ds => some (ds.map (fun _ => (4 : ℚ)))
    rfPred := fun _ ds => some (ds.map (fun _ => (4 : ℚ))) }

/-- Oracles on which every backtest fit/predict raises, while the final
full-history refit succeeds with constant prediction 1. -/
def failOracle : Oracles :=
  { evalP := fun _ => none
    evalL := fun _ => none
    evalRF := fun _ => none
    prophetPred := fun _ ds => some (ds.map (fun _ => (1 : ℚ)))
    linearPred := fun _ ds => some (ds.map (fun _ => (1 : ℚ)))
    rfPred := fun _ ds => some (ds.map (fun _ => (1 : ℚ))) }

/-- The report/bundle pair `analyzeDistrict` produces for
`demoDistrict12` under `demoOracle`. -/
def demoPair : Report × Bundle :=
  (analyzeDistrict demoOracle 12 demoDistrict12).get (by with_unfolding_all rfl)

/-- The report/bundle pair `analyzeDistrict` produces for `cxDistrict`
under `cxOracle`. -/
def cxPair : Report × Bundle :=
  (analyzeDistrict cxOracle 12 cxDistrict).get (by with_unfolding_all rfl)

/-! ## Helper lemmas -/

/-- The value component of `bestChoice` is the return of the model named
by its model component. -/
lemma bestChoice_snd (errP errL errRF retP retL retRF : ℚ) :
    (bestChoice errP errL errRF retP retL retRF).2 =
      returnOfModel retP retL retRF (bestChoice errP errL errRF retP retL retRF).1 := by
  unfold bestChoice
  dsimp only
  split_ifs <;> rfl

/-- Closed form of the cross-validation loop: each model's error list is
its input list extended by one recorded value per window. -/
lemma cvLoop_eq (or : Oracles) :
    ∀ (ws : List (List (ℕ × ℚ) × List (ℕ × ℚ))) (ep el erf : List ℚ),
      cvLoop or ws (ep, el, erf) =
        (ep ++ ws.map (fun w => (or.evalP w).getD 100),
         el ++ ws.map (fun w => (or.evalL w).getD 100),
         erf ++ ws.map (fun w => (or.evalRF w).getD 100))
  | [], ep, el, erf => by simp [cvLoop]
  | w :: ws, ep, el, erf => by
      simp [cvLoop, cvLoop_eq or ws]

/-- When the series is long enough, iteration `k` of the window loop
forms the window whose test slice is the 12 points starting at position
`n - 12k` and whose train slice is everything before it. -/
lemma windowFor_some (xs : List (ℕ × ℚ)) (k : ℕ) (hk : 1 ≤ k)
    (h : 12 * k + 2 ≤ xs.length) :
    windowFor xs k =
      some (xs.take (xs.length - 12 * k), (xs.drop (xs.length - 12 * k)).take 12) := by
  have htest : (if k = 1 then xs.drop (xs.length - 12)
      else pySlice xs (xs.length - 12 * k) (xs.length - (12 * k - 12))) =
      (xs.drop (xs.length - 12 * k)).take 12 := by
    by_cases hk1 : k = 1
    · subst hk1
      rw [if_pos rfl, mul_one]
      refine (List.take_of_length_le ?_).symm
      simp only [List.length_drop]
      omega
    · rw [if_neg hk1]
      unfold pySlice
      congr 1
      omega
  unfold windowFor
  dsimp only
  rw [htest, if_neg]
  simp only [List.length_take, List.length_drop, not_or, not_lt]
  omega

/-- With at most 36 points no window is formed. -/
lemma backtestWindows_small (xs : List (ℕ × ℚ)) (h : xs.length ≤ 36) :
    backtestWindows xs = [] := by
  unfold backtestWindows cvYears
  rw [if_neg (by omega), if_neg (by omega)]
  rfl

/-- With `36 < n ≤ 60` points exactly the single `k = 1` window is
formed, testing on the last 12 points. -/
lemma backtestWindows_one (xs : List (ℕ × ℚ)) (h1 : 36 < xs.length)
    (h2 : xs.length ≤ 60) :
    backtestWindows xs =
      [(xs.take (xs.length - 12), (xs.drop (xs.length - 12)).take 12)] := by
  unfold backtestWindows cvYears
  rw [if_neg (by omega), if_pos (by omega)]
  have hw := windowFor_some xs 1 (by omega) (by omega)
  simp only [ksFor, List.range_succ, List.range_zero, List.nil_append,
    List.reverse_cons, List.reverse_nil, List.map_cons, List.map_nil,
    List.filterMap_cons, List.filterMap_nil, hw, Nat.zero_add, mul_one]

/-- With more than 60 points exactly the windows `k = 3, 2, 1` are
formed, testing on the last three 12-point slices. -/
lemma backtestWindows_three (xs : List (ℕ × ℚ)) (h : 60 < xs.length) :
    backtestWindows xs =
      [(xs.take (xs.length - 36), (xs.drop (xs.length - 36)).take 12),
       (xs.take (xs.length - 24), (xs.drop (xs.length - 24)).take 12),
       (xs.take (xs.length - 12), (xs.drop (xs.length - 12)).take 12)] := by
  unfold backtestWindows cvYears
  rw [if_pos (by omega)]
  have hw3 := windowFor_some xs 3 (by omega) (by omega)
  have hw2 := windowFor_some xs 2 (by omega) (by omega)
  have hw1 := windowFor_some xs 1 (by omega) (by omega)
  norm_num at hw3 hw2 hw1
  have hks : ksFor 3 = [3, 2, 1] := by rfl
  rw [hks]
  simp only [List.filterMap_cons, List.filterMap_nil, hw3, hw2, hw1]

/-- The number of windows formed is exactly `cv_years`. -/
lemma backtestWindows_length (xs : List (ℕ × ℚ)) :
    (backtestWindows xs).length = cvYears xs.length := by
  by_cases h60 : 60 < xs.length
  · rw [backtestWindows_three xs h60]
    unfold cvYears
    rw [if_pos (by omega)]
    rfl
  · by_cases h36 : 36 < xs.length
    · rw [backtestWindows_one xs h36 (by omega)]
      unfold cvYears
      rw [if_neg (by omega), if_pos (by omega)]
      rfl
    · rw [backtestWindows_small xs (by omega)]
      unfold cvYears
      rw [if_neg (by omega), if_neg (by omega)]
      rfl

/-- Entries on which the mapper yields `none` can be filtered away without
changing a `filterMap`. -/
lemma filterMap_eq_filter_filterMap {α β : Type} (f : α → Option β)
    (p : α → Bool) (hf : ∀ a, p a = false → f a = none) :
    ∀ l : List α, l.filterMap f = (l.filter p).filterMap f
  | [] => rfl
  | a :: l => by
      cases hpa : p a
      · simp [List.filter_cons, hpa, List.filterMap_cons, hf a hpa,
          filterMap_eq_filter_filterMap f p hf l]
      · simp [List.filter_cons, hpa, List.filterMap_cons,
          filterMap_eq_filter_filterMap f p hf l]

/-- Inversion of a successful per-district analysis: the report and
bundle are assembled exactly from the oracle outputs over
`make_future_dataframe`'s dates and from the backtest errors. -/
lemma analyzeDistrict_inv (or : Oracles) (months : ℕ) (d : District)
    (r : Report) (b : Bundle)
    (h : analyzeDistrict or months d = some (r, b)) :
    12 ≤ d.series.length ∧
    ∃ fcP fcL fcRF current futP futL futRF,
      or.prophetPred d.series (makeFutureDS (d.series.map Prod.fst) months) = some fcP ∧
      or.linearPred d.series (makeFutureDS (d.series.map Prod.fst) months) = some fcL ∧
      or.rfPred d.series (makeFutureDS (d.series.map Prod.fst) months) = some fcRF ∧
      (d.series.map Prod.snd).getLast? = some current ∧
      fcP.getLast? = some futP ∧
      fcL.getLast? = some futL ∧
      fcRF.getLast? = some futRF ∧
      r = buildReport d.name current futP futL futRF
            (backtestErrors or d.series).1
            (backtestErrors or d.series).2.1
            (backtestErrors or d.series).2.2 ∧
      b = { history := d.series
            prophetDS := makeFutureDS (d.series.map Prod.fst) months
            prophetYhat := fcP
            linearDS := makeFutureDS (d.series.map Prod.fst) months
            linearYhat := fcL
            rfDS := makeFutureDS (d.series.map Prod.fst) months
            rfYhat := fcRF
            errP := (backtestErrors or d.series).1
            errL := (backtestErrors or d.series).2.1
            errRF := (backtestErrors or d.series).2.2 } := by
  unfold analyzeDistrict at h
  by_cases hlen : d.series.length < 12
  · rw [if_pos hlen] at h
    exact absurd h (by simp)
  · rw [if_neg hlen] at h
    refine ⟨by omega, ?_⟩
    unfold forecastStep at h
    simp only [bind, Option.bind_eq_some, Option.some.injEq] at h
    obtain ⟨fcP, hP, fcL, hL, fcRF, hRF, current, hc, futP, hfP, futL, hfL,
      futRF, hfRF, hrb⟩ := h
    refine ⟨fcP, fcL, fcRF, current, futP, futL, futRF, hP, hL, hRF, hc,
      hfP, hfL, hfRF, ?_, ?_⟩
    · exact (congrArg Prod.fst hrb).symm
    · exact (congrArg Prod.snd hrb).symm

/-! ## Claim theorems -/

/-- C1: for every district that reaches reporting, the selected best
model is the one with minimal averaged backtest error among the three
models, with ties broken by the fixed precedence Prophet before Linear
before RandomForest; consequently the error of the selected best model
equals the minimum of the three error values.  (`bestChoice` is the
selection applied verbatim in every emitted report row.) -/
theorem C1_best_model_argmin (errP errL errRF retP retL retRF : ℚ) :
    errorOfModel errP errL errRF (bestChoice errP errL errRF retP retL retRF).1 =
      min errP (min errL errRF) ∧
    ((bestChoice errP errL errRF retP retL retRF).1 = Model.prophet ↔
      errP ≤ errL ∧ errP ≤ errRF) ∧
    ((bestChoice errP errL errRF retP retL retRF).1 = Model.linear ↔
      ¬(errP ≤ errL ∧ errP ≤ errRF) ∧ errL ≤ errRF) ∧
    ((bestChoice errP errL errRF retP retL retRF).1 = Model.rf ↔
      ¬(errP ≤ errL ∧ errP ≤ errRF) ∧ ¬(errL ≤ errRF)) := by
  unfold bestChoice
  dsimp only
  split_ifs with h1 h2
  · have hp : errP ≤ errL ∧ errP ≤ errRF :=
      le_min_iff.mp (min_eq_left_iff.mp h1)
    refine ⟨?_, ?_, ?_, ?_⟩
    · simpa [errorOfModel] using h1.symm
    · simp [hp.1, hp.2]
    · simp [hp.1, hp.2]
    · simp [hp.1, hp.2]
  · have hl1 : errL ≤ errP := by
      have hle : min errP (min errL errRF) ≤ errP := min_le_left _ _
      rwa [h2] at hle
    have hl2 : errL ≤ errRF := by
      have hle : min errP (min errL errRF) ≤ errRF :=
        le_trans (min_le_right _ _) (min_le_right _ _)
      rwa [h2] at hle
    have hnp : ¬(errP ≤ errL ∧ errP ≤ errRF) := by
      intro hp
      exact h1 (min_eq_left_iff.mpr (le_min_iff.mpr hp))
    refine ⟨?_, ?_, ?_, ?_⟩
    · simpa [errorOfModel] using h2.symm
    · simp [hnp]
    · simp [hnp, hl2]
    · simp [hnp, hl2]
  · have h3 : min errP (min errL errRF) = errRF := by
      rcases min_choice errL errRF with hc | hc
      · rcases min_choice errP (min errL errRF) with hd | hd
        · exact absurd hd h1
        · exact absurd (hd.trans hc) h2
      · rcases min_choice errP (min errL errRF) with hd | hd
        · exact absurd hd h1
        · exact hd.trans hc
    have hr2 : errRF ≤ errL := by
      have hle : min errP (min errL errRF) ≤ errL :=
        le_trans (min_le_right _ _) (min_le_left _ _)
      rwa [h3] at hle
    have hnp : ¬(errP ≤ errL ∧ errP ≤ errRF) := by
      intro hp
      exact h1 (min_eq_left_iff.mpr (le_min_iff.mpr hp))
    have hnl : ¬(errL ≤ errRF) := by
      intro hl
      exact h2 (by rw [h3, le_antisymm hl hr2])
    refine ⟨?_, ?_, ?_, ?_⟩
    · simpa [errorOfModel] using h3.symm
    · simp [hnp]
    · simp [hnp, hnl]
    · simp [hnp, hnl]

/-- C2 (counterexample): for the 12-month history January–December 2023
and horizon `months = 12`, the stored projection frames do NOT consist of
exactly 12 future dates: `make_future_dataframe` is called with its
default `include_history=True`, so every model's `ds` column holds the 12
history dates followed by the 12 future dates — 24 entries, not 12. -/
theorem C2_counterexample :
    (analyzeDistrict demoOracle 12 demoDistrict12).map
        (fun rb => rb.2.prophetDS.length) = some 24 ∧
    (analyzeDistrict demoOracle 12 demoDistrict12).map
        (fun rb => rb.2.linearDS.length) = some 24 ∧
    (24 : ℕ) ≠ 12 := by
  refine ⟨by decide, by decide, by decide⟩

/-- C2 (amended): for every district that reaches reporting and every
horizon, all three models' projection frames share one `ds` column, whose
entries are the district's historical dates followed by exactly `months`
future dates, spaced one month apart, starting the month immediately
following the last historical date.  (The future portion is as the claim
describes; the frames additionally retain the in-sample history dates.) -/
theorem C2_amended_projection (or : Oracles) (months : ℕ) (d : District)
    (r : Report) (b : Bundle)
    (h : analyzeDistrict or months d = some (r, b)) :
    b.linearDS = b.prophetDS ∧
    b.rfDS = b.prophetDS ∧
    b.prophetDS.length = d.series.length + months ∧
    b.prophetDS.take d.series.length = d.series.map Prod.fst ∧
    ∀ i : ℕ, i < months →
      (b.prophetDS.drop d.series.length)[i]? =
        some ((d.series.map Prod.fst).getLastD 0 + 1 + i) := by
  obtain ⟨-, fcP, fcL, fcRF, current, futP, futL, futRF, hP, hL, hRF, hc,
    hfP, hfL, hfRF, hr, hb⟩ := analyzeDistrict_inv or months d r b h
  subst hb
  have hlen : (d.series.map Prod.fst).length = d.series.length :=
    List.length_map _ _
  refine ⟨rfl, rfl, ?_, ?_, ?_⟩
  · simp [makeFutureDS]
  · rw [makeFutureDS, ← hlen, List.take_left]
  · intro i hi
    rw [makeFutureDS, ← hlen, List.drop_left]
    simp [List.getElem?_map, List.getElem?_range, hi]

/-- Witness for the amended C2 at the concrete January–December 2023
district with horizon 12. -/
theorem C2_amended_projection_witness :
    demoPair.2.prophetDS.length = demoDistrict12.series.length + 12 := by
  have h : analyzeDistrict demoOracle 12 demoDistrict12 =
      some (demoPair.1, demoPair.2) :=
    (Option.some_get (by with_unfolding_all rfl)).symm
  exact (C2_amended_projection demoOracle 12 demoDistrict12
    demoPair.1 demoPair.2 h).2.2.1

/-- C3: for a district series of `n ≥ 12` months, exactly 3
cross-validation windows are formed when `n > 60`, exactly 1 when
`36 < n ≤ 60`, and 0 when `n ≤ 36` — in which case backtesting is skipped
and every model receives the sentinel error 99.9. -/
theorem C3_window_count (or : Oracles) (xs : List (ℕ × ℚ))
    (h12 : 12 ≤ xs.length) :
    (60 < xs.length → (backtestWindows xs).length = 3) ∧
    (36 < xs.length → xs.length ≤ 60 → (backtestWindows xs).length = 1) ∧
    (xs.length ≤ 36 → (backtestWindows xs).length = 0 ∧
      backtestErrors or xs = (999 / 10, 999 / 10, 999 / 10)) := by
  refine ⟨?_, ?_, ?_⟩
  · intro h
    rw [backtestWindows_length]
    unfold cvYears
    rw [if_pos (by omega)]
  · intro h1 h2
    rw [backtestWindows_length]
    unfold cvYears
    rw [if_neg (by omega), if_pos (by omega)]
  · intro h
    have h0 : cvYears xs.length = 0 := by
      unfold cvYears
      rw [if_neg (by omega), if_neg (by omega)]
    constructor
    · rw [backtestWindows_length, h0]
    · unfold backtestErrors
      rw [h0]
      rfl

/-- Witness for C3 at a concrete 40-month series: one window. -/
theorem C3_window_count_witness : (backtestWindows series40).length = 1 :=
  (C3_window_count demoOracle series40 (by decide)).2.1 (by decide) (by decide)

/-- C4: with `W = cv_years ≥ 1` windows, the loop runs `k = W, …, 1`; at
depth `k` the test slice is the 12 points ending `12*(k-1)` points before
the end of history and the train slice is every point strictly before it
(`train ++ test` is the prefix ending `12*(k-1)` before the end).  The
test slices are each exactly 12 points long and their concatenation is
exactly the suffix of the most recent `12*W` points, so they are pairwise
disjoint and cover it. -/
theorem C4_window_geometry (xs : List (ℕ × ℚ)) (hW : 1 ≤ cvYears xs.length) :
    backtestWindows xs =
      (ksFor (cvYears xs.length)).map (fun k =>
        (xs.take (xs.length - 12 * k), (xs.drop (xs.length - 12 * k)).take 12)) ∧
    (∀ w ∈ backtestWindows xs, w.2.length = 12) ∧
    ((backtestWindows xs).map Prod.snd).flatten =
      xs.drop (xs.length - 12 * cvYears xs.length) ∧
    (∀ w ∈ backtestWindows xs, ∃ k, 1 ≤ k ∧ k ≤ cvYears xs.length ∧
      w.1 = xs.take (xs.length - 12 * k) ∧
      w.2 = (xs.drop (xs.length - 12 * k)).take 12 ∧
      w.1 ++ w.2 = xs.take (xs.length - 12 * (k - 1))) := by
  have h36 : 36 < xs.length := by
    by_contra hc
    have h0 : cvYears xs.length = 0 := by
      unfold cvYears
      rw [if_neg (by omega), if_neg (by omega)]
    omega
  have hd1 : (xs.drop (xs.length - 12)).take 12 = xs.drop (xs.length - 12) := by
    refine List.take_of_length_le ?_
    simp only [List.length_drop]
    omega
  by_cases h60 : 60 < xs.length
  · have hW3 : cvYears xs.length = 3 := by
      unfold cvYears
      rw [if_pos (by omega)]
    rw [backtestWindows_three xs h60, hW3]
    refine ⟨?_, ?_, ?_, ?_⟩
    · simp only [ksFor, List.range_succ, List.range_zero, List.nil_append,
        List.reverse_cons, List.reverse_nil, List.map_cons, List.map_nil,
        List.append_nil, List.singleton_append, List.cons_append, Nat.zero_add]
    · intro w hw
      simp only [List.mem_cons, List.not_mem_nil, or_false] at hw
      rcases hw with rfl | rfl | rfl <;>
        (simp only [List.length_take, List.length_drop]; omega)
    · have e1 : xs.length - 36 + 12 = xs.length - 24 := by omega
      have e2 : xs.length - 24 + 12 = xs.length - 12 := by omega
      have g1 := List.drop_take_append_drop xs (xs.length - 36) 12
      have g2 := List.drop_take_append_drop xs (xs.length - 24) 12
      rw [e1] at g1
      rw [e2] at g2
      simp only [List.map_cons, List.map_nil, List.flatten_cons,
        List.flatten_nil, List.append_nil]
      calc ((xs.drop (xs.length - 36)).take 12) ++
            (((xs.drop (xs.length - 24)).take 12) ++
              ((xs.drop (xs.length - 12)).take 12))
          = ((xs.drop (xs.length - 36)).take 12) ++
            (((xs.drop (xs.length - 24)).take 12) ++ xs.drop (xs.length - 12)) := by
            rw [hd1]
        _ = ((xs.drop (xs.length - 36)).take 12) ++ xs.drop (xs.length - 24) := by
            rw [g2]
        _ = xs.drop (xs.length - 36) := g1
        _ = xs.drop (xs.length - 12 * 3) := by norm_num
    · intro w hw
      simp only [List.mem_cons, List.not_mem_nil, or_false] at hw
      rcases hw with rfl | rfl | rfl
      · refine ⟨3, by omega, by omega, by norm_num, by norm_num, ?_⟩
        rw [show xs.length - 12 * (3 - 1) = (xs.length - 36) + 12 by omega,
          List.take_add]
      · refine ⟨2, by omega, by omega, by norm_num, by norm_num, ?_⟩
        rw [show xs.length - 12 * (2 - 1) = (xs.length - 24) + 12 by omega,
          List.take_add]
      · refine ⟨1, by omega, by omega, by norm_num, by norm_num, ?_⟩
        rw [show xs.length - 12 * (1 - 1) = (xs.length - 12) + 12 by omega,
          List.take_add]
  · have hW1 : cvYears xs.length = 1 := by
      unfold cvYears
      rw [if_neg (by omega), if_pos (by omega)]
    rw [backtestWindows_one xs h36 (by omega), hW1]
    refine ⟨?_, ?_, ?_, ?_⟩
    · simp only [ksFor, List.range_succ, List.range_zero, List.nil_append,
        List.reverse_cons, List.reverse_nil, List.map_cons, List.map_nil,
        Nat.zero_add]
    · intro w hw
      simp only [List.mem_cons, List.not_mem_nil, or_false] at hw
      rcases hw with rfl
      simp only [List.length_take, List.length_drop]
      omega
    · simp only [List.map_cons, List.map_nil, List.flatten_cons,
        List.flatten_nil, List.append_nil]
      rw [hd1]
    · intro w hw
      simp only [List.mem_cons, List.not_mem_nil, or_false] at hw
      rcases hw with rfl
      refine ⟨1, by omega, by omega, by norm_num, by norm_num, ?_⟩
      rw [show xs.length - 12 * (1 - 1) = (xs.length - 12) + 12 by omega,
        List.take_add]

/-- Witness for C4 at the concrete 40-month series. -/
theorem C4_window_geometry_witness :
    ((backtestWindows series40).map Prod.snd).flatten =
      series40.drop (series40.length - 12 * cvYears series40.length) :=
  (C4_window_geometry series40 (by decide)).2.2.1

/-- C5 (counterexample): for the 40-month series, exactly one backtest
window is formed; under `failOracle` every window's fit/predict fails for
every model, i.e. every model has zero successful windows — yet the final
error of each model is the averaged penalty 100.0, not the sentinel 99.9
the claim prescribes for that situation. -/
theorem C5_counterexample :
    (backtestWindows series40).length = 1 ∧
    backtestErrors failOracle series40 = (100, 100, 100) ∧
    ((100 : ℚ) ≠ 999 / 10) := by
  refine ⟨by decide, by with_unfolding_all decide, by norm_num⟩

/-- C5 (amended): once at least one window is formed (`n > 36`), each
model's final error is the arithmetic mean of its recorded per-window
values — MAPE for a successful window, penalty 100.0 for a failed one.
A failed fit still records a value, so the list of recorded values always
has exactly `cv_years` entries and is never empty: the empty-list
fallback 99.9 cannot trigger, and a model whose every window failed gets
100.0, not 99.9. -/
theorem C5_amended_mean_of_recorded (or : Oracles) (xs : List (ℕ × ℚ))
    (h : 36 < xs.length) :
    (backtestWindows xs).length = cvYears xs.length ∧
    0 < (backtestWindows xs).length ∧
    backtestErrors or xs =
      (((backtestWindows xs).map (fun w => (or.evalP w).getD 100)).sum /
         ((backtestWindows xs).length : ℚ),
       ((backtestWindows xs).map (fun w => (or.evalL w).getD 100)).sum /
         ((backtestWindows xs).length : ℚ),
       ((backtestWindows xs).map (fun w => (or.evalRF w).getD 100)).sum /
         ((backtestWindows xs).length : ℚ)) := by
  have hlen := backtestWindows_length xs
  have hpos : 0 < (backtestWindows xs).length := by
    rw [hlen]
    unfold cvYears
    split_ifs <;> omega
  refine ⟨hlen, hpos, ?_⟩
  unfold backtestErrors
  rw [if_pos (by rw [← hlen]; exact hpos)]
  rw [cvLoop_eq]
  simp only [List.nil_append]
  have hne : ∀ f : List (ℕ × ℚ) × List (ℕ × ℚ) → ℚ,
      (backtestWindows xs).map f ≠ [] := by
    intro f hc
    have hlc := congrArg List.length hc
    simp only [List.length_map, List.length_nil] at hlc
    omega
  unfold avgError
  rw [if_neg (hne _), if_neg (hne _), if_neg (hne _)]
  simp only [List.length_map]

/-- Witness for the amended C5 at the concrete 40-month series under the
all-fail oracles. -/
theorem C5_amended_mean_of_recorded_witness :
    backtestErrors failOracle series40 =
      (((backtestWindows series40).map
          (fun w => (failOracle.evalP w).getD 100)).sum /
         ((backtestWindows series40).length : ℚ),
       ((backtestWindows series40).map
          (fun w => (failOracle.evalL w).getD 100)).sum /
         ((backtestWindows series40).length : ℚ),
       ((backtestWindows series40).map
          (fun w => (failOracle.evalRF w).getD 100)).sum /
         ((backtestWindows series40).length : ℚ)) :=
  (C5_amended_mean_of_recorded failOracle series40 (by decide)).2.2

/-- C6: for every backtest window and every model, a failed fit/predict
(`none`) records exactly the penalty 100.0 for that window/model pair and
nothing else: each model's recorded list is the pointwise image of its own
evaluations over the windows, so one pair's failure leaves every other
window's and every other model's recorded value — and the continuation of
the loop — unchanged. -/
theorem C6_penalty_isolation (or : Oracles)
    (ws : List (List (ℕ × ℚ) × List (ℕ × ℚ))) :
    cvLoop or ws ([], [], []) =
      (ws.map (fun w => match or.evalP w with | some e => e | none => 100),
       ws.map (fun w => match or.evalL w with | some e => e | none => 100),
       ws.map (fun w => match or.evalRF w with | some e => e | none => 100)) := by
  have hP : ∀ w, (or.evalP w).getD 100 =
      (match or.evalP w with | some e => e | none => (100 : ℚ)) := by
    intro w
    rcases or.evalP w with _ | e <;> rfl
  have hL : ∀ w, (or.evalL w).getD 100 =
      (match or.evalL w with | some e => e | none => (100 : ℚ)) := by
    intro w
    rcases or.evalL w with _ | e <;> rfl
  have hRF : ∀ w, (or.evalRF w).getD 100 =
      (match or.evalRF w with | some e => e | none => (100 : ℚ)) := by
    intro w
    rcases or.evalRF w with _ | e <;> rfl
  rw [cvLoop_eq]
  simp only [List.nil_append, hP, hL, hRF]

/-- C7 (counterexample): district with current price 3 whose models all
project 4.  The exact return is `(4 - 3) / 3 * 100 = 100/3`, but the
reported per-model return field holds `round(100/3, 2) = 33.33 ≠ 100/3`:
the emitted per-model return percentages are rounded to 2 decimals, not
exactly equal to the formula. -/
theorem C7_counterexample :
    (cxDistrict.series.map Prod.snd).getLast? = some 3 ∧
    cxPair.2.linearYhat.getLast? = some 4 ∧
    analyzeDistrict cxOracle 12 cxDistrict = some (cxPair.1, cxPair.2) ∧
    cxPair.1.returnL = 3333 / 100 ∧
    ((3333 / 100 : ℚ) ≠ ((4 : ℚ) - 3) / 3 * 100) := by
  refine ⟨by decide, by with_unfolding_all rfl,
    (Option.some_get (by with_unfolding_all rfl)).symm, ?_, by norm_num⟩
  · have h1 : cxPair.1.returnL = round2 (modelReturn 3 4) := by
      with_unfolding_all rfl
    have h2 : round2 (modelReturn 3 4) = 3333 / 100 := by
      norm_num [round2, rndHalfEven, modelReturn]
    rw [h1, h2]

/-- C7 (amended): for every reported district with nonzero current price
and every model, the return percentage is computed exactly as
`(lastProjectedPrice - currentPrice) / currentPrice * 100`; the emitted
per-model return columns carry that value rounded to 2 decimal places
(`round(…, 2)`), while the internal best-return column (`'최적 수익률'`)
carries the selected model's exact, unrounded value. -/
theorem C7_amended_returns (or : Oracles) (months : ℕ) (d : District)
    (r : Report) (b : Bundle)
    (h : analyzeDistrict or months d = some (r, b))
    (current futP futL futRF : ℚ)
    (hcur : (d.series.map Prod.snd).getLast? = some current)
    (hfP : b.prophetYhat.getLast? = some futP)
    (hfL : b.linearYhat.getLast? = some futL)
    (hfRF : b.rfYhat.getLast? = some futRF)
    (h0 : current ≠ 0) :
    r.returnP = round2 ((futP - current) / current * 100) ∧
    r.returnL = round2 ((futL - current) / current * 100) ∧
    r.returnRF = round2 ((futRF - current) / current * 100) ∧
    r.bestReturn = returnOfModel ((futP - current) / current * 100)
      ((futL - current) / current * 100) ((futRF - current) / current * 100)
      r.bestModel := by
  obtain ⟨-, fcP, fcL, fcRF, current2, futP2, futL2, futRF2, hP2, hL2, hRF2,
    hc2, hfP2, hfL2, hfRF2, hr, hb⟩ := analyzeDistrict_inv or months d r b h
  subst hb
  have ec : current2 = current := Option.some.inj (hc2.symm.trans hcur)
  have eP : futP2 = futP := Option.some.inj (hfP2.symm.trans hfP)
  have eL : futL2 = futL := Option.some.inj (hfL2.symm.trans hfL)
  have eRF : futRF2 = futRF := Option.some.inj (hfRF2.symm.trans hfRF)
  subst ec eP eL eRF
  subst hr
  refine ⟨rfl, rfl, rfl, ?_⟩
  exact bestChoice_snd _ _ _ _ _ _

/-- Witness for the amended C7 at the price-3/projection-4 district. -/
theorem C7_amended_returns_witness :
    cxPair.1.returnL = round2 (((4 : ℚ) - 3) / 3 * 100) :=
  (C7_amended_returns cxOracle 12 cxDistrict cxPair.1 cxPair.2
    (Option.some_get (by with_unfolding_all rfl)).symm 3 4 4 4
    (by decide) (by with_unfolding_all rfl) (by with_unfolding_all rfl)
    (by with_unfolding_all rfl) (by norm_num)).2.1

/-- C8: a district with fewer than 12 historical points is excluded
entirely — its analysis yields nothing (no row, no bundle, no sentinel,
no penalty), and the whole run produces exactly what it produces on the
input with such districts removed, so analysis of all other districts
continues unaffected. -/
theorem C8_short_districts_skipped (or : Oracles) (months : ℕ)
    (ds : List District) :
    predictDistrictPrices or ds months =
      predictDistrictPrices or
        (ds.filter (fun d => decide (12 ≤ d.series.length))) months ∧
    ∀ d : District, d.series.length < 12 →
      analyzeDistrict or months d = none := by
  constructor
  · have hfm : ds.filterMap (analyzeDistrict or months) =
        (ds.filter (fun d => decide (12 ≤ d.series.length))).filterMap
          (analyzeDistrict or months) := by
      apply filterMap_eq_filter_filterMap
      intro a ha
      simp only [decide_eq_false_iff_not, not_le] at ha
      unfold analyzeDistrict
      rw [if_pos ha]
    unfold predictDistrictPrices
    rw [hfm]
  · intro d hd
    unfold analyzeDistrict
    rw [if_pos hd]

/-- Witness for C8: the ten-point district is skipped. -/
theorem C8_short_districts_skipped_witness :
    analyzeDistrict demoOracle 12 shortDistrict = none :=
  (C8_short_districts_skipped demoOracle 12 []).2 shortDistrict (by decide)

/-- Totality of the line-180 sort key relation. -/
instance : IsTotal Report byBestReturnDesc :=
  ⟨fun a b => le_total b.bestReturn a.bestReturn⟩

/-- Transitivity of the line-180 sort key relation. -/
instance : IsTrans Report byBestReturnDesc :=
  ⟨fun _ _ _ hab hbc => le_trans hbc hab⟩

set_option maxRecDepth 2000 in
/-- C9 (counterexample): the core does fix a sorting policy.  For the
two-district input `[district 0, district 1]` — analyzed in that order,
with best returns −99 and 100 respectively — the returned report lists
district 1 first: the rows come back sorted by `'최적 수익률'`
descending (line 180), not in caller-decided order. -/
theorem C9_counterexample :
    ([demoDistrict12, demoDistrictHalf].filterMap
        (analyzeDistrict failOracle 12)).map (fun rb => rb.1.district) =
      [0, 1] ∧
    (predictDistrictPrices failOracle [demoDistrict12, demoDistrictHalf]
        12).1.map (fun r => r.district) = [1, 0] ∧
    ([1, 0] ≠ ([0, 1] : List ℕ)) := by
  refine ⟨by with_unfolding_all rfl, by with_unfolding_all rfl, by decide⟩

/-- C9 (amended): the core sorts the report rows it returns by the
best-model return (`'최적 수익률'`) in descending order before handing
them to the caller; the sorted output is a permutation of the analyzed
rows, so every per-model return and error figure remains exposed in every
row — only the order is imposed by the core rather than the caller. -/
theorem C9_amended_sorted_by_best_return (or : Oracles) (ds : List District)
    (months : ℕ) :
    List.Sorted byBestReturnDesc (predictDistrictPrices or ds months).1 ∧
    List.Perm (predictDistrictPrices or ds months).1
      ((ds.filterMap (analyzeDistrict or months)).map Prod.fst) := by
  constructor
  · exact List.sorted_insertionSort byBestReturnDesc _
  · exact List.perm_insertionSort byBestReturnDesc _

/-- C10: in every emitted report row, the best-return field
(`'최적 수익률'`) is exactly the (unrounded) return percentage of the
model named in the best-model field (`'추천 모델'`): Prophet's return
when it names Prophet, Linear's when Linear, RandomForest's when
RandomForest. -/
theorem C10_best_fields_consistent (or : Oracles) (months : ℕ)
    (d : District) (r : Report) (b : Bundle)
    (h : analyzeDistrict or months d = some (r, b))
    (current futP futL futRF : ℚ)
    (hcur : (d.series.map Prod.snd).getLast? = some current)
    (hfP : b.prophetYhat.getLast? = some futP)
    (hfL : b.linearYhat.getLast? = some futL)
    (hfRF : b.rfYhat.getLast? = some futRF) :
    r.bestReturn = returnOfModel (modelReturn current futP)
      (modelReturn current futL) (modelReturn current futRF) r.bestModel := by
  obtain ⟨-, fcP, fcL, fcRF, current2, futP2, futL2, futRF2, hP2, hL2, hRF2,
    hc2, hfP2, hfL2, hfRF2, hr, hb⟩ := analyzeDistrict_inv or months d r b h
  subst hb
  have ec : current2 = current := Option.some.inj (hc2.symm.trans hcur)
  have eP : futP2 = futP := Option.some.inj (hfP2.symm.trans hfP)
  have eL : futL2 = futL := Option.some.inj (hfL2.symm.trans hfL)
  have eRF : futRF2 = futRF := Option.some.inj (hfRF2.symm.trans hfRF)
  subst ec eP eL eRF
  subst hr
  exact bestChoice_snd _ _ _ _ _ _

/-- Witness for C10 at the price-3/projection-4 district. -/
theorem C10_best_fields_consistent_witness :
    cxPair.1.bestReturn = returnOfModel (modelReturn 3 4) (modelReturn 3 4)
      (modelReturn 3 4) cxPair.1.bestModel :=
  C10_best_fields_consistent cxOracle 12 cxDistrict cxPair.1 cxPair.2
    (Option.some_get (by with_unfolding_all rfl)).symm 3 4 4 4
    (by decide) (by with_unfolding_all rfl) (by with_unfolding_all rfl)
    (by with_unfolding_all rfl)
